import Mathlib

/-!
# Grid metrics of the terminal rasterizer

A shallow embedding of `src/vtrasterizer/GridMetrics.h`: the value type
`GridMetrics` with its margins and underline geometry, and the pure mappings
`map`, `mapTopLeft` and `mapBottomLeft` from a grid cell to the pixel
coordinate of one of its corners.

## Arithmetic

Every coordinate in the header is a C++ `int` (32 bits, two's complement).
The embedding keeps values in `Int` and reduces the result of each `+` and `*`
with `wrapInt`, the representative in `[-2^31, 2^31)` modulo `2^32`.  C++ does
not define signed overflow; `wrapInt` is what the two's-complement targets of
the project compute.  Every theorem on a coordinate therefore has two parts:
the value as an `int` (for all inputs), and the exact integer value whenever
that value is representable (`InIntRange`), where no reduction takes place.
-/

namespace terminal.rasterizer

/-! ## The `int` type -/

/-- Reduction of an exact integer to the 32-bit two's-complement `int`
congruent to it modulo `2^32`. -/
def wrapInt (z : Int) : Int := (z + 2147483648) % 4294967296 - 2147483648

/-- The exact integer `z` is representable as an `int`
(`INT_MIN ≤ z ≤ INT_MAX`). -/
def InIntRange (z : Int) : Prop := -2147483648 ≤ z ∧ z ≤ 2147483647

instance instDecidableInIntRange (z : Int) : Decidable (InIntRange z) :=
  inferInstanceAs (Decidable (-2147483648 ≤ z ∧ z ≤ 2147483647))

/-- The `int` sum `a + b`. -/
def addInt (a b : Int) : Int := wrapInt (a + b)

/-- The `int` product `a * b`. -/
def mulInt (a b : Int) : Int := wrapInt (a * b)

/-- The `int` difference `a - b`. -/
def subInt (a b : Int) : Int := wrapInt (a - b)

/-! ## Types supplied by the included headers -/

/-- Modelled from the spec: `LineOffset` of `terminal/primitives.h`, which is
not among the sources; "line and column offsets are signed integers", a
zero-based row index growing downward.  `*_line` reads the `int` it boxes. -/
abbrev LineOffset := Int

/-- Modelled from the spec: `ColumnOffset` of `terminal/primitives.h`, which is
not among the sources; a signed zero-based column index growing rightward.
`*_column` reads the `int` it boxes. -/
abbrev ColumnOffset := Int

/-- Modelled from the spec: `CellLocation` of `terminal/primitives.h`, which is
not among the sources; the "combined location record" of a line and a column
offset. -/
structure CellLocation where
  line : LineOffset
  column : ColumnOffset
  deriving DecidableEq, Repr

/-- Modelled from the spec: `PageSize` of `terminal/primitives.h`, which is not
among the sources; "grid dimensions in (lines, columns) — logical, not pixel,
units". -/
structure PageSize where
  lines : Int
  columns : Int
  deriving DecidableEq, Repr

/-- Modelled from the spec: `ImageSize` of `crispy/size.h`, which is not among
the sources; "pixel dimensions (width, height) of a single character cell".
The fields hold the stored values; the mapping reads them through
`as<int>()` (`asInt`). -/
structure ImageSize where
  width : Int
  height : Int
  deriving DecidableEq, Repr

/-- Modelled from the spec: the member `as<int>()` of the boxed `Width` and
`Height` of `crispy/size.h`, which is not among the sources: the conversion of
the stored value to `int`. -/
def asInt (v : Int) : Int := wrapInt v

/-- Modelled from the spec: `crispy::Point` of `crispy/point.h`, which is not
among the sources; a pixel coordinate `{ x, y }` of two `int`s. -/
structure Point where
  x : Int
  y : Int
  deriving DecidableEq, Repr

/-- Modelled from the spec: the difference of two points, "minus", the pixel
displacement between two cells (`crispy/point.h` is not among the sources),
taken coordinate by coordinate in `int`. -/
def Point.sub (a b : Point) : Point :=
  { x := subInt a.x b.x, y := subInt a.y b.y }

/-! ## `GridMetrics.h` -/

/-- Uniform cell margin for the grid view (`struct CellMargin`); every member
has the default member initializer `= 0`. -/
structure CellMargin where
  top : Int := 0
  left : Int := 0
  bottom : Int := 0
  right : Int := 0
  deriving DecidableEq, Repr

/-- Margin for the render view (`struct PageMargin`); no default member
initializers. -/
structure PageMargin where
  left : Int
  top : Int
  bottom : Int
  deriving DecidableEq, Repr

/-- The unnamed struct of the member `underline`, with its default member
initializers `position = 1` and `thickness = 1`. -/
structure Underline where
  position : Int := 1
  thickness : Int := 1
  deriving DecidableEq, Repr

/-- The aggregate `struct GridMetrics`.  `underline {}` and `cellMargin {}`
take their members' default initializers; `pageMargin {}` value-initializes
its three `int`s to zero. -/
structure GridMetrics where
  pageSize : PageSize
  cellSize : ImageSize
  baseline : Int
  underline : Underline := {}
  cellMargin : CellMargin := {}
  pageMargin : PageMargin := { left := 0, top := 0, bottom := 0 }
  deriving DecidableEq, Repr

/-- `GridMetrics::mapTopLeft(LineOffset, ColumnOffset)`:
`x = pageMargin.left + *_column * cellSize.width.as<int>()`,
`y = pageMargin.top + *_line * cellSize.height.as<int>()`,
`return { x, y }`. -/
def GridMetrics.mapTopLeft (g : GridMetrics) (line : LineOffset) (column : ColumnOffset) :
    Point :=
  let x := addInt g.pageMargin.left (mulInt column (asInt g.cellSize.width))
  let y := addInt g.pageMargin.top (mulInt line (asInt g.cellSize.height))
  { x := x, y := y }

/-- `GridMetrics::mapTopLeft(CellLocation)`:
`return mapTopLeft(_pos.line, _pos.column)`. -/
def GridMetrics.mapTopLeftPos (g : GridMetrics) (pos : CellLocation) : Point :=
  g.mapTopLeft pos.line pos.column

/-- `GridMetrics::map(LineOffset, ColumnOffset)`:
`return mapTopLeft(_line, _column)`. -/
def GridMetrics.map (g : GridMetrics) (line : LineOffset) (column : ColumnOffset) : Point :=
  g.mapTopLeft line column

/-- `GridMetrics::map(CellLocation)`: `return map(_pos.line, _pos.column)`. -/
def GridMetrics.mapPos (g : GridMetrics) (pos : CellLocation) : Point :=
  g.map pos.line pos.column

/-- `GridMetrics::mapBottomLeft(LineOffset, ColumnOffset)`:
`return mapTopLeft(_line + 1, _column)`, the `+ 1` in `int`. -/
def GridMetrics.mapBottomLeft (g : GridMetrics) (line : LineOffset) (column : ColumnOffset) :
    Point :=
  g.mapTopLeft (addInt line 1) column

/-- `GridMetrics::mapBottomLeft(CellLocation)`:
`return mapBottomLeft(_pos.line, _pos.column)`. -/
def GridMetrics.mapBottomLeftPos (g : GridMetrics) (pos : CellLocation) : Point :=
  g.mapBottomLeft pos.line pos.column

/-- The grid of the worked example: cells of 10 by 20 pixels on a page of 24
lines and 80 columns, page margin `{ left 4, top 2, bottom 0 }`. -/
def exampleMetrics : GridMetrics :=
  { pageSize := { lines := 24, columns := 80 },
    cellSize := { width := 10, height := 20 },
    baseline := 4,
    pageMargin := { left := 4, top := 2, bottom := 0 } }

/-- A copy of `g` after the assignment `pageMargin.left = left`; every other
member, `pageMargin.top` and `pageMargin.bottom` included, is kept. -/
def GridMetrics.withPageMarginLeft (g : GridMetrics) (left : Int) : GridMetrics :=
  { g with pageMargin := { g.pageMargin with left := left } }

/-! ## The debug representation -/

/-- Modelled from the spec: the formatters of the argument types, which the
included headers and the formatting library supply and which are not among the
sources: the text that a replacement field receives for a `PageSize`, for an
`ImageSize` and for an `int`. -/
structure ArgFormatters where
  fmtPageSize : PageSize → String
  fmtImageSize : ImageSize → String
  fmtInt : Int → String

/-- The part of `fmt::format_to` that the format string of this header
exercises: the characters of the format string are copied to the output, and
each replacement field (an opening brace directly followed by a closing brace)
is replaced by the next argument, in order; arguments left over are ignored.
`none` stands for `fmt::format_error`: a replacement field without an argument,
or a brace that is not part of a replacement field. -/
def format_to : List Char → List String → Option String
  | [], _ => some ""
  | [c], _ => if c = Char.ofNat 123 ∨ c = Char.ofNat 125 then none else some (String.singleton c)
  | c :: d :: rest, args =>
    if c = Char.ofNat 123 then
      if d = Char.ofNat 125 then
        match args with
        | a :: args => (format_to rest args).map (fun s => a ++ s)
        | [] => none
      else none
    else if c = Char.ofNat 125 then none
    else (format_to (d :: rest) args).map (fun s => String.singleton c ++ s)

/-- `fmt::formatter<terminal::rasterizer::GridMetrics>::format`: the text
appended to `ctx.out()` by `fmt::format_to` with the format string
`(pageSize=[], cellSize=[], baseline=[], underline=[]@[], margin=(left=[], bottom=[]))`
(each `[]` written here for a replacement field) and the arguments
`v.pageSize`, `v.cellSize`, `v.baseline`, `v.underline.position`,
`v.underline.thickness`, `v.pageMargin.left`, `v.pageMargin.bottom`. -/
def formatter.format (F : ArgFormatters) (v : GridMetrics) : Option String :=
  format_to
    ("(pageSize=\x7b\x7d, cellSize=\x7b\x7d, baseline=\x7b\x7d, " ++
      "underline=\x7b\x7d@\x7b\x7d, margin=(left=\x7b\x7d, bottom=\x7b\x7d))").toList
    [F.fmtPageSize v.pageSize,
      F.fmtImageSize v.cellSize,
      F.fmtInt v.baseline,
      F.fmtInt v.underline.position,
      F.fmtInt v.underline.thickness,
      F.fmtInt v.pageMargin.left,
      F.fmtInt v.pageMargin.bottom]

/-! ## Facts on `int` arithmetic -/

theorem wrapInt_modEq (z : Int) : wrapInt z ≡ z [ZMOD 4294967296] := by
  unfold wrapInt Int.ModEq
  omega

theorem wrapInt_congr {a b : Int} (h : a ≡ b [ZMOD 4294967296]) : wrapInt a = wrapInt b := by
  unfold Int.ModEq at h
  unfold wrapInt
  omega

theorem wrapInt_of_inRange {z : Int} (h : InIntRange z) : wrapInt z = z := by
  unfold InIntRange at h
  unfold wrapInt
  omega

theorem inIntRange_wrapInt (z : Int) : InIntRange (wrapInt z) := by
  unfold InIntRange wrapInt
  omega

theorem wrapInt_wrapInt (z : Int) : wrapInt (wrapInt z) = wrapInt z :=
  wrapInt_of_inRange (inIntRange_wrapInt z)

/-- The `int` evaluation of `a + c * w.as<int>()` is the `int` congruent to
the exact value of `a + c * w`. -/
theorem addInt_mulInt_asInt (a c w : Int) :
    addInt a (mulInt c (asInt w)) = wrapInt (a + c * w) := by
  unfold addInt mulInt asInt
  apply wrapInt_congr
  have h1 : c * wrapInt w ≡ c * w [ZMOD 4294967296] := (wrapInt_modEq w).mul_left c
  have h2 : wrapInt (c * wrapInt w) ≡ c * w [ZMOD 4294967296] :=
    (wrapInt_modEq (c * wrapInt w)).trans h1
  exact h2.add_left a

theorem mapTopLeft_x (g : GridMetrics) (line column : Int) :
    (g.mapTopLeft line column).x = wrapInt (g.pageMargin.left + column * g.cellSize.width) :=
  addInt_mulInt_asInt _ _ _

theorem mapTopLeft_y (g : GridMetrics) (line column : Int) :
    (g.mapTopLeft line column).y = wrapInt (g.pageMargin.top + line * g.cellSize.height) :=
  addInt_mulInt_asInt _ _ _

theorem mapTopLeft_eq (g : GridMetrics) (line column : Int) :
    g.mapTopLeft line column =
      { x := wrapInt (g.pageMargin.left + column * g.cellSize.width),
        y := wrapInt (g.pageMargin.top + line * g.cellSize.height) } := by
  have hx := mapTopLeft_x g line column
  have hy := mapTopLeft_y g line column
  cases h : g.mapTopLeft line column with
  | mk x y =>
    rw [h] at hx hy
    simp only at hx hy
    rw [hx, hy]

/-- Reducing the line offset to `int` first does not change the point. -/
theorem mapTopLeft_wrapInt_line (g : GridMetrics) (line column : Int) :
    g.mapTopLeft (wrapInt line) column = g.mapTopLeft line column := by
  rw [mapTopLeft_eq, mapTopLeft_eq]
  have h : wrapInt (g.pageMargin.top + wrapInt line * g.cellSize.height) =
      wrapInt (g.pageMargin.top + line * g.cellSize.height) :=
    wrapInt_congr (((wrapInt_modEq line).mul_right _).add_left _)
  rw [h]

/-- Reducing the column offset to `int` first does not change the point. -/
theorem mapTopLeft_wrapInt_column (g : GridMetrics) (line column : Int) :
    g.mapTopLeft line (wrapInt column) = g.mapTopLeft line column := by
  rw [mapTopLeft_eq, mapTopLeft_eq]
  have h : wrapInt (g.pageMargin.left + wrapInt column * g.cellSize.width) =
      wrapInt (g.pageMargin.left + column * g.cellSize.width) :=
    wrapInt_congr (((wrapInt_modEq column).mul_right _).add_left _)
  rw [h]

/-- One more column adds the cell width to `x`, in `int`. -/
theorem mapTopLeft_x_succ (g : GridMetrics) (line column : Int) :
    (g.mapTopLeft line (column + 1)).x =
      wrapInt ((g.mapTopLeft line column).x + g.cellSize.width) := by
  rw [mapTopLeft_x, mapTopLeft_x]
  apply wrapInt_congr
  have h := (wrapInt_modEq (g.pageMargin.left + column * g.cellSize.width)).add_right
    g.cellSize.width
  refine Int.ModEq.trans ?_ h.symm
  rw [show g.pageMargin.left + (column + 1) * g.cellSize.width =
    g.pageMargin.left + column * g.cellSize.width + g.cellSize.width by ring]

/-- One more line adds the cell height to `y`, in `int`. -/
theorem mapTopLeft_y_succ (g : GridMetrics) (line column : Int) :
    (g.mapTopLeft (line + 1) column).y =
      wrapInt ((g.mapTopLeft line column).y + g.cellSize.height) := by
  rw [mapTopLeft_y, mapTopLeft_y]
  apply wrapInt_congr
  have h := (wrapInt_modEq (g.pageMargin.top + line * g.cellSize.height)).add_right
    g.cellSize.height
  refine Int.ModEq.trans ?_ h.symm
  rw [show g.pageMargin.top + (line + 1) * g.cellSize.height =
    g.pageMargin.top + line * g.cellSize.height + g.cellSize.height by ring]

/-! ## The claims -/

/-- C1: for every `GridMetrics` with non-negative `cellSize` and every
`line ≥ 0`, `column ≥ 0`, `mapTopLeft(line, column)` is the point whose `x` is
`pageMargin.left + column * cellSize.width` and whose `y` is
`pageMargin.top + line * cellSize.height`: each coordinate is the `int` of
that value, and is that value exactly whenever it is representable. -/
theorem mapTopLeft_formula (g : GridMetrics) (line : LineOffset) (column : ColumnOffset)
    (_hw : 0 ≤ g.cellSize.width) (_hh : 0 ≤ g.cellSize.height)
    (_hl : 0 ≤ line) (_hc : 0 ≤ column) :
    (g.mapTopLeft line column).x = wrapInt (g.pageMargin.left + column * g.cellSize.width) ∧
    (g.mapTopLeft line column).y = wrapInt (g.pageMargin.top + line * g.cellSize.height) ∧
    (InIntRange (g.pageMargin.left + column * g.cellSize.width) →
      (g.mapTopLeft line column).x = g.pageMargin.left + column * g.cellSize.width) ∧
    (InIntRange (g.pageMargin.top + line * g.cellSize.height) →
      (g.mapTopLeft line column).y = g.pageMargin.top + line * g.cellSize.height) := by
  refine ⟨mapTopLeft_x g line column, mapTopLeft_y g line column, ?_, ?_⟩
  · intro h
    rw [mapTopLeft_x, wrapInt_of_inRange h]
  · intro h
    rw [mapTopLeft_y, wrapInt_of_inRange h]

theorem mapTopLeft_formula_witness :
    (0 : Int) ≤ exampleMetrics.cellSize.width ∧ (0 : Int) ≤ exampleMetrics.cellSize.height ∧
    (0 : Int) ≤ 2 ∧ (0 : Int) ≤ 3 ∧
    (exampleMetrics.mapTopLeft 2 3).x = 4 + 3 * 10 ∧
    (exampleMetrics.mapTopLeft 2 3).y = 2 + 2 * 20 :=
  have h := mapTopLeft_formula exampleMetrics 2 3 (by decide) (by decide) (by decide)
    (by decide)
  ⟨by decide, by decide, by decide, by decide, h.2.2.1 (by decide), h.2.2.2 (by decide)⟩

/-- C2: for every `GridMetrics`, line and column, `mapBottomLeft(line, column)`
equals `mapTopLeft(line + 1, column)`, with `line + 1` taken in `int` as the
code does and also with the exact successor. -/
theorem mapBottomLeft_eq_mapTopLeft_succ (g : GridMetrics) (line : LineOffset)
    (column : ColumnOffset) :
    g.mapBottomLeft line column = g.mapTopLeft (addInt line 1) column ∧
    g.mapBottomLeft line column = g.mapTopLeft (line + 1) column :=
  ⟨rfl, mapTopLeft_wrapInt_line g (line + 1) column⟩

/-- C3: for every `GridMetrics`, line and column, `map(line, column)` equals
`mapTopLeft(line, column)`, and `map` of the location record `{line, column}`
equals `mapTopLeft(line, column)`. -/
theorem map_eq_mapTopLeft (g : GridMetrics) (line : LineOffset) (column : ColumnOffset) :
    g.map line column = g.mapTopLeft line column ∧
    g.mapPos { line := line, column := column } = g.mapTopLeft line column :=
  ⟨rfl, rfl⟩

/-- C4: for every `GridMetrics`, line and column, `mapTopLeft(line, column + 1).x`
equals `mapTopLeft(line, column).x + cellSize.width` and
`mapTopLeft(line + 1, column).y` equals `mapTopLeft(line, column).y +
cellSize.height`: as `int` sums for all inputs, and exactly whenever the sum
is representable. -/
theorem mapTopLeft_step (g : GridMetrics) (line : LineOffset) (column : ColumnOffset) :
    (g.mapTopLeft line (column + 1)).x =
      wrapInt ((g.mapTopLeft line column).x + g.cellSize.width) ∧
    (g.mapTopLeft (line + 1) column).y =
      wrapInt ((g.mapTopLeft line column).y + g.cellSize.height) ∧
    (InIntRange ((g.mapTopLeft line column).x + g.cellSize.width) →
      (g.mapTopLeft line (column + 1)).x = (g.mapTopLeft line column).x + g.cellSize.width) ∧
    (InIntRange ((g.mapTopLeft line column).y + g.cellSize.height) →
      (g.mapTopLeft (line + 1) column).y =
        (g.mapTopLeft line column).y + g.cellSize.height) := by
  refine ⟨mapTopLeft_x_succ g line column, mapTopLeft_y_succ g line column, ?_, ?_⟩
  · intro h
    rw [mapTopLeft_x_succ, wrapInt_of_inRange h]
  · intro h
    rw [mapTopLeft_y_succ, wrapInt_of_inRange h]

theorem mapTopLeft_step_witness :
    (exampleMetrics.mapTopLeft 2 (3 + 1)).x = (exampleMetrics.mapTopLeft 2 3).x + 10 ∧
    (exampleMetrics.mapTopLeft (2 + 1) 3).y = (exampleMetrics.mapTopLeft 2 3).y + 20 :=
  have h := mapTopLeft_step exampleMetrics 2 3
  ⟨h.2.2.1 (by decide), h.2.2.2 (by decide)⟩

/-- C5: for every signed line and column, negative or at or beyond `pageSize`
included, `mapTopLeft` is total and does not clamp: it returns the
extrapolated point `(pageMargin.left + column * cellSize.width,
pageMargin.top + line * cellSize.height)` (each coordinate as an `int`, exact
whenever representable), and the point is the same whatever `pageSize` is. -/
theorem mapTopLeft_extrapolates (g : GridMetrics) (line : LineOffset) (column : ColumnOffset) :
    g.mapTopLeft line column =
      { x := wrapInt (g.pageMargin.left + column * g.cellSize.width),
        y := wrapInt (g.pageMargin.top + line * g.cellSize.height) } ∧
    (InIntRange (g.pageMargin.left + column * g.cellSize.width) →
      InIntRange (g.pageMargin.top + line * g.cellSize.height) →
      g.mapTopLeft line column =
        { x := g.pageMargin.left + column * g.cellSize.width,
          y := g.pageMargin.top + line * g.cellSize.height }) ∧
    (∀ pageSize : PageSize,
      GridMetrics.mapTopLeft { g with pageSize := pageSize } line column =
        g.mapTopLeft line column) := by
  refine ⟨mapTopLeft_eq g line column, ?_, fun _ => rfl⟩
  intro hx hy
  rw [mapTopLeft_eq, wrapInt_of_inRange hx, wrapInt_of_inRange hy]

theorem mapTopLeft_extrapolates_witness :
    exampleMetrics.mapTopLeft (-7) 5000 = { x := 4 + 5000 * 10, y := 2 + (-7) * 20 } ∧
    GridMetrics.mapTopLeft { exampleMetrics with pageSize := { lines := 1, columns := 1 } }
      (-7) 5000 = exampleMetrics.mapTopLeft (-7) 5000 :=
  have h := mapTopLeft_extrapolates exampleMetrics (-7) 5000
  ⟨h.2.1 (by decide) (by decide), h.2.2 { lines := 1, columns := 1 }⟩

/-- C6: two `GridMetrics` that differ only in `cellMargin` (any of top, left,
bottom, right) give the same point under `map`, `mapTopLeft` and
`mapBottomLeft` for every line and column: the cell margin is stored but never
applied. -/
theorem cellMargin_not_applied (g : GridMetrics) (cellMargin : CellMargin)
    (line : LineOffset) (column : ColumnOffset) :
    GridMetrics.map { g with cellMargin := cellMargin } line column = g.map line column ∧
    GridMetrics.mapTopLeft { g with cellMargin := cellMargin } line column =
      g.mapTopLeft line column ∧
    GridMetrics.mapBottomLeft { g with cellMargin := cellMargin } line column =
      g.mapBottomLeft line column :=
  ⟨rfl, rfl, rfl⟩

/-- C7: for every `GridMetrics` with `pageMargin.left = 0` and
`pageMargin.top = 0`, whatever its `cellSize`, `mapTopLeft(0, 0)` is the point
`(0, 0)`. -/
theorem mapTopLeft_origin (g : GridMetrics) (hleft : g.pageMargin.left = 0)
    (htop : g.pageMargin.top = 0) :
    g.mapTopLeft 0 0 = { x := 0, y := 0 } := by
  rw [mapTopLeft_eq, hleft, htop]
  simp only [zero_mul, add_zero]
  rfl

theorem mapTopLeft_origin_witness :
    GridMetrics.mapTopLeft
      { exampleMetrics with pageMargin := { left := 0, top := 0, bottom := 0 } } 0 0 =
      { x := 0, y := 0 } :=
  mapTopLeft_origin { exampleMetrics with pageMargin := { left := 0, top := 0, bottom := 0 } }
    rfl rfl

/-- C8: for every `cellSize`, line and column, of two `GridMetrics` equal except
that one has `pageMargin.left = -5` and the other `pageMargin.left = 0`, the
first maps to an `x` that is the `x` of the second minus 5 (as an `int`
difference for all inputs, exactly whenever the difference is representable),
and to the same `y`. -/
theorem pageMargin_left_minus_five (g : GridMetrics) (line : LineOffset)
    (column : ColumnOffset) :
    ((g.withPageMarginLeft (-5)).mapTopLeft line column).x =
      subInt ((g.withPageMarginLeft 0).mapTopLeft line column).x 5 ∧
    (InIntRange (((g.withPageMarginLeft 0).mapTopLeft line column).x - 5) →
      ((g.withPageMarginLeft (-5)).mapTopLeft line column).x =
        ((g.withPageMarginLeft 0).mapTopLeft line column).x - 5) ∧
    ((g.withPageMarginLeft (-5)).mapTopLeft line column).y =
      ((g.withPageMarginLeft 0).mapTopLeft line column).y := by
  have hx : ((g.withPageMarginLeft (-5)).mapTopLeft line column).x =
      subInt ((g.withPageMarginLeft 0).mapTopLeft line column).x 5 := by
    rw [mapTopLeft_x, mapTopLeft_x]
    unfold subInt
    apply wrapInt_congr
    have h := (wrapInt_modEq ((g.withPageMarginLeft 0).pageMargin.left +
      column * (g.withPageMarginLeft 0).cellSize.width)).sub_right 5
    refine Int.ModEq.trans ?_ h.symm
    simp only [GridMetrics.withPageMarginLeft]
    rw [show (-5 : Int) + column * g.cellSize.width = 0 + column * g.cellSize.width - 5 by ring]
  refine ⟨hx, ?_, rfl⟩
  intro h
  rw [hx]
  exact wrapInt_of_inRange h

theorem pageMargin_left_minus_five_witness :
    ((exampleMetrics.withPageMarginLeft (-5)).mapTopLeft 2 3).x =
      ((exampleMetrics.withPageMarginLeft 0).mapTopLeft 2 3).x - 5 :=
  (pageMargin_left_minus_five exampleMetrics 2 3).2.1 (by decide)

/-- C9: with `cellSize = (width 10, height 20)` and
`pageMargin = {left 4, top 2, bottom 0}`, whatever the other members,
`mapTopLeft(line 2, column 3)` is `Point(34, 42)` and
`mapBottomLeft(line 2, column 3)` is `Point(34, 62)`. -/
theorem worked_example (pageSize : PageSize) (baseline : Int) (underline : Underline)
    (cellMargin : CellMargin) :
    GridMetrics.mapTopLeft
      { pageSize := pageSize, cellSize := { width := 10, height := 20 },
        baseline := baseline, underline := underline, cellMargin := cellMargin,
        pageMargin := { left := 4, top := 2, bottom := 0 } } 2 3 = { x := 34, y := 42 } ∧
    GridMetrics.mapBottomLeft
      { pageSize := pageSize, cellSize := { width := 10, height := 20 },
        baseline := baseline, underline := underline, cellMargin := cellMargin,
        pageMargin := { left := 4, top := 2, bottom := 0 } } 2 3 = { x := 34, y := 62 } :=
  ⟨rfl, rfl⟩

/-- C10: a `GridMetrics` whose underline geometry and `cellMargin` are not
explicitly set has `underline.position = 1`, `underline.thickness = 1`, and
`cellMargin` top, left, bottom and right all equal to 0. -/
theorem underline_cellMargin_defaults (pageSize : PageSize) (cellSize : ImageSize)
    (baseline : Int) (pageMargin : PageMargin) :
    GridMetrics.underline
      { pageSize := pageSize, cellSize := cellSize, baseline := baseline,
        pageMargin := pageMargin } = { position := 1, thickness := 1 } ∧
    GridMetrics.cellMargin
      { pageSize := pageSize, cellSize := cellSize, baseline := baseline,
        pageMargin := pageMargin } = { top := 0, left := 0, bottom := 0, right := 0 } :=
  ⟨rfl, rfl⟩

/-! ## Bottom-left corner, degenerate cells -/

/-- The `int` successor formed by `mapBottomLeft` addresses the same point as
the exact successor of the line. -/
theorem mapBottomLeft_eq (g : GridMetrics) (line column : Int) :
    g.mapBottomLeft line column = g.mapTopLeft (line + 1) column :=
  mapTopLeft_wrapInt_line g (line + 1) column

/-- C11: for every `GridMetrics`, line and column, `mapBottomLeft(line, column)`
has the `x` of `mapTopLeft(line, column)` and a `y` that is `cellSize.height`
greater; it is the point `(pageMargin.left + column * cellSize.width,
pageMargin.top + (line + 1) * cellSize.height)`.  Each coordinate is the `int`
of the stated value for all inputs, and that value exactly whenever it is
representable. -/
theorem mapBottomLeft_corner (g : GridMetrics) (line : LineOffset) (column : ColumnOffset) :
    (g.mapBottomLeft line column).x = (g.mapTopLeft line column).x ∧
    (g.mapBottomLeft line column).y =
      wrapInt ((g.mapTopLeft line column).y + g.cellSize.height) ∧
    (InIntRange ((g.mapTopLeft line column).y + g.cellSize.height) →
      (g.mapBottomLeft line column).y = (g.mapTopLeft line column).y + g.cellSize.height) ∧
    g.mapBottomLeft line column =
      { x := wrapInt (g.pageMargin.left + column * g.cellSize.width),
        y := wrapInt (g.pageMargin.top + (line + 1) * g.cellSize.height) } ∧
    (InIntRange (g.pageMargin.left + column * g.cellSize.width) →
      InIntRange (g.pageMargin.top + (line + 1) * g.cellSize.height) →
      g.mapBottomLeft line column =
        { x := g.pageMargin.left + column * g.cellSize.width,
          y := g.pageMargin.top + (line + 1) * g.cellSize.height }) := by
  have hy : (g.mapBottomLeft line column).y =
      wrapInt ((g.mapTopLeft line column).y + g.cellSize.height) := by
    rw [mapBottomLeft_eq, mapTopLeft_y_succ]
  refine ⟨?_, hy, ?_, ?_, ?_⟩
  · rw [mapBottomLeft_eq, mapTopLeft_x, mapTopLeft_x]
  · intro h
    rw [hy, wrapInt_of_inRange h]
  · rw [mapBottomLeft_eq, mapTopLeft_eq]
  · intro hx hy2
    rw [mapBottomLeft_eq, mapTopLeft_eq, wrapInt_of_inRange hx, wrapInt_of_inRange hy2]

theorem mapBottomLeft_corner_witness :
    (exampleMetrics.mapBottomLeft 2 3).y = (exampleMetrics.mapTopLeft 2 3).y + 20 ∧
    exampleMetrics.mapBottomLeft 2 3 = { x := 4 + 3 * 10, y := 2 + (2 + 1) * 20 } :=
  have h := mapBottomLeft_corner exampleMetrics 2 3
  ⟨h.2.2.1 (by decide), h.2.2.2.2 (by decide) (by decide)⟩

/-- C12: a zero cell size is accepted: for every `GridMetrics` with
`cellSize.width = 0` and `cellSize.height = 0`, `mapTopLeft(line, column)` is
`(pageMargin.left, pageMargin.top)` for every line and column (the two `int`
members as stored, hence exactly those values when they are representable),
and `mapBottomLeft(line, column)` equals `mapTopLeft(line, column)`. -/
theorem zero_cellSize_collapses (g : GridMetrics) (line : LineOffset) (column : ColumnOffset)
    (hw : g.cellSize.width = 0) (hh : g.cellSize.height = 0) :
    g.mapTopLeft line column =
      { x := wrapInt g.pageMargin.left, y := wrapInt g.pageMargin.top } ∧
    (InIntRange g.pageMargin.left → InIntRange g.pageMargin.top →
      g.mapTopLeft line column = { x := g.pageMargin.left, y := g.pageMargin.top }) ∧
    g.mapBottomLeft line column = g.mapTopLeft line column := by
  have h : ∀ l : Int, g.mapTopLeft l column =
      { x := wrapInt g.pageMargin.left, y := wrapInt g.pageMargin.top } := by
    intro l
    rw [mapTopLeft_eq, hw, hh]
    simp only [mul_zero, add_zero]
  refine ⟨h line, ?_, ?_⟩
  · intro hl ht
    rw [h line, wrapInt_of_inRange hl, wrapInt_of_inRange ht]
  · rw [mapBottomLeft_eq, h line, h (line + 1)]

theorem zero_cellSize_collapses_witness :
    GridMetrics.mapTopLeft { exampleMetrics with cellSize := { width := 0, height := 0 } }
      7 (-9) = { x := 4, y := 2 } ∧
    GridMetrics.mapBottomLeft { exampleMetrics with cellSize := { width := 0, height := 0 } }
      7 (-9) =
      GridMetrics.mapTopLeft { exampleMetrics with cellSize := { width := 0, height := 0 } }
        7 (-9) :=
  have h := zero_cellSize_collapses
    { exampleMetrics with cellSize := { width := 0, height := 0 } } 7 (-9) rfl rfl
  ⟨h.2.1 (by decide) (by decide), h.2.2⟩

/-! ## Displacement, injectivity, dependence on the members -/

/-- The `int` difference of two `int` values `a + c₁ * w` and `a + c₂ * w` is
the `int` of `(c₁ - c₂) * w`: the common offset `a` cancels. -/
theorem subInt_wrapInt_offset (a c1 c2 w : Int) :
    subInt (wrapInt (a + c1 * w)) (wrapInt (a + c2 * w)) = wrapInt ((c1 - c2) * w) := by
  unfold subInt
  apply wrapInt_congr
  have h := (wrapInt_modEq (a + c1 * w)).sub (wrapInt_modEq (a + c2 * w))
  have e : a + c1 * w - (a + c2 * w) = (c1 - c2) * w := by ring
  rw [e] at h
  exact h

theorem point_sub_mapTopLeft (g : GridMetrics) (l1 c1 l2 c2 : Int) :
    Point.sub (g.mapTopLeft l1 c1) (g.mapTopLeft l2 c2) =
      { x := wrapInt ((c1 - c2) * g.cellSize.width),
        y := wrapInt ((l1 - l2) * g.cellSize.height) } := by
  unfold Point.sub
  rw [mapTopLeft_x, mapTopLeft_x, mapTopLeft_y, mapTopLeft_y, subInt_wrapInt_offset,
    subInt_wrapInt_offset]

/-- C14: for every `GridMetrics` and every two cells `(l1, c1)` and `(l2, c2)`,
`mapTopLeft(l1, c1)` minus `mapTopLeft(l2, c2)` is
`((c1 - c2) * cellSize.width, (l1 - l2) * cellSize.height)`: as `int`s for all
inputs, exactly whenever these products are representable, and as exact
differences of the coordinates whenever the two points are representable.
The displacement is the same whatever `pageMargin` is. -/
theorem displacement_between_cells (g : GridMetrics) (l1 : LineOffset) (c1 : ColumnOffset)
    (l2 : LineOffset) (c2 : ColumnOffset) :
    Point.sub (g.mapTopLeft l1 c1) (g.mapTopLeft l2 c2) =
      { x := wrapInt ((c1 - c2) * g.cellSize.width),
        y := wrapInt ((l1 - l2) * g.cellSize.height) } ∧
    (InIntRange ((c1 - c2) * g.cellSize.width) → InIntRange ((l1 - l2) * g.cellSize.height) →
      Point.sub (g.mapTopLeft l1 c1) (g.mapTopLeft l2 c2) =
        { x := (c1 - c2) * g.cellSize.width, y := (l1 - l2) * g.cellSize.height }) ∧
    (InIntRange (g.pageMargin.left + c1 * g.cellSize.width) →
      InIntRange (g.pageMargin.left + c2 * g.cellSize.width) →
      (g.mapTopLeft l1 c1).x - (g.mapTopLeft l2 c2).x = (c1 - c2) * g.cellSize.width) ∧
    (InIntRange (g.pageMargin.top + l1 * g.cellSize.height) →
      InIntRange (g.pageMargin.top + l2 * g.cellSize.height) →
      (g.mapTopLeft l1 c1).y - (g.mapTopLeft l2 c2).y = (l1 - l2) * g.cellSize.height) ∧
    (∀ pageMargin : PageMargin,
      Point.sub (GridMetrics.mapTopLeft { g with pageMargin := pageMargin } l1 c1)
          (GridMetrics.mapTopLeft { g with pageMargin := pageMargin } l2 c2) =
        Point.sub (g.mapTopLeft l1 c1) (g.mapTopLeft l2 c2)) := by
  refine ⟨point_sub_mapTopLeft g l1 c1 l2 c2, ?_, ?_, ?_, ?_⟩
  · intro hx hy
    rw [point_sub_mapTopLeft, wrapInt_of_inRange hx, wrapInt_of_inRange hy]
  · intro h1 h2
    rw [mapTopLeft_x, mapTopLeft_x, wrapInt_of_inRange h1, wrapInt_of_inRange h2]
    ring
  · intro h1 h2
    rw [mapTopLeft_y, mapTopLeft_y, wrapInt_of_inRange h1, wrapInt_of_inRange h2]
    ring
  · intro pageMargin
    rw [point_sub_mapTopLeft, point_sub_mapTopLeft]

theorem displacement_between_cells_witness :
    Point.sub (exampleMetrics.mapTopLeft 5 1) (exampleMetrics.mapTopLeft 2 3) =
      { x := (1 - 3) * 10, y := (5 - 2) * 20 } ∧
    (exampleMetrics.mapTopLeft 5 1).x - (exampleMetrics.mapTopLeft 2 3).x = (1 - 3) * 10 ∧
    (exampleMetrics.mapTopLeft 5 1).y - (exampleMetrics.mapTopLeft 2 3).y = (5 - 2) * 20 :=
  have h := displacement_between_cells exampleMetrics 5 1 2 3
  ⟨h.2.1 (by decide) (by decide), h.2.2.1 (by decide) (by decide),
    h.2.2.2.1 (by decide) (by decide)⟩

/-- C15: for every `GridMetrics` with `cellSize.width > 0` and
`cellSize.height > 0`, `mapTopLeft` is injective absent integer overflow: two
cells whose points are representable and equal are the same cell. -/
theorem mapTopLeft_injective (g : GridMetrics) (l1 : LineOffset) (c1 : ColumnOffset)
    (l2 : LineOffset) (c2 : ColumnOffset)
    (hw : 0 < g.cellSize.width) (hh : 0 < g.cellSize.height)
    (hx1 : InIntRange (g.pageMargin.left + c1 * g.cellSize.width))
    (hy1 : InIntRange (g.pageMargin.top + l1 * g.cellSize.height))
    (hx2 : InIntRange (g.pageMargin.left + c2 * g.cellSize.width))
    (hy2 : InIntRange (g.pageMargin.top + l2 * g.cellSize.height))
    (heq : g.mapTopLeft l1 c1 = g.mapTopLeft l2 c2) :
    l1 = l2 ∧ c1 = c2 := by
  have ex : (g.mapTopLeft l1 c1).x = (g.mapTopLeft l2 c2).x := by rw [heq]
  have ey : (g.mapTopLeft l1 c1).y = (g.mapTopLeft l2 c2).y := by rw [heq]
  rw [mapTopLeft_x, mapTopLeft_x, wrapInt_of_inRange hx1, wrapInt_of_inRange hx2] at ex
  rw [mapTopLeft_y, mapTopLeft_y, wrapInt_of_inRange hy1, wrapInt_of_inRange hy2] at ey
  constructor
  · exact Int.eq_of_mul_eq_mul_right (ne_of_gt hh) (by omega)
  · exact Int.eq_of_mul_eq_mul_right (ne_of_gt hw) (by omega)

theorem mapTopLeft_injective_witness :
    (0 : Int) < exampleMetrics.cellSize.width ∧ (0 : Int) < exampleMetrics.cellSize.height ∧
    exampleMetrics.mapTopLeft 2 3 = exampleMetrics.mapTopLeft (1 + 1) (4 - 1) ∧
    ((2 : Int) = 1 + 1 ∧ (3 : Int) = 4 - 1) :=
  ⟨by decide, by decide, by decide,
    mapTopLeft_injective exampleMetrics 2 3 (1 + 1) (4 - 1) (by decide) (by decide)
      (by decide) (by decide) (by decide) (by decide) (by decide)⟩

/-- C16: the point returned by `map`, `mapTopLeft` and `mapBottomLeft` is
determined by `pageMargin.left`, `pageMargin.top`, `cellSize` and the offsets:
two `GridMetrics` that agree on these members return the same point for every
line and column, whatever their `baseline`, underline geometry,
`pageMargin.bottom`, `cellMargin` and `pageSize`. -/
theorem mapping_determined_by (g1 g2 : GridMetrics) (line : LineOffset)
    (column : ColumnOffset)
    (hleft : g1.pageMargin.left = g2.pageMargin.left)
    (htop : g1.pageMargin.top = g2.pageMargin.top)
    (hcell : g1.cellSize = g2.cellSize) :
    g1.map line column = g2.map line column ∧
    g1.mapTopLeft line column = g2.mapTopLeft line column ∧
    g1.mapBottomLeft line column = g2.mapBottomLeft line column := by
  have h : ∀ l : Int, g1.mapTopLeft l column = g2.mapTopLeft l column := by
    intro l
    unfold GridMetrics.mapTopLeft
    rw [hleft, htop, hcell]
  exact ⟨h line, h line, h (addInt line 1)⟩

theorem mapping_determined_by_witness :
    GridMetrics.map
        { pageSize := { lines := 1, columns := 2 }, cellSize := { width := 10, height := 20 },
          baseline := 9, underline := { position := 3, thickness := 2 },
          pageMargin := { left := 4, top := 2, bottom := 17 } } 2 3 =
      exampleMetrics.map 2 3 ∧
    GridMetrics.mapTopLeft
        { pageSize := { lines := 1, columns := 2 }, cellSize := { width := 10, height := 20 },
          baseline := 9, underline := { position := 3, thickness := 2 },
          pageMargin := { left := 4, top := 2, bottom := 17 } } 2 3 =
      exampleMetrics.mapTopLeft 2 3 ∧
    GridMetrics.mapBottomLeft
        { pageSize := { lines := 1, columns := 2 }, cellSize := { width := 10, height := 20 },
          baseline := 9, underline := { position := 3, thickness := 2 },
          pageMargin := { left := 4, top := 2, bottom := 17 } } 2 3 =
      exampleMetrics.mapBottomLeft 2 3 :=
  mapping_determined_by
    { pageSize := { lines := 1, columns := 2 }, cellSize := { width := 10, height := 20 },
      baseline := 9, underline := { position := 3, thickness := 2 },
      pageMargin := { left := 4, top := 2, bottom := 17 } }
    exampleMetrics 2 3 rfl rfl rfl

/-- C17: for every `GridMetrics` and every location record `pos`, the
single-argument overloads agree with the two-argument ones: `mapTopLeft(pos)`
equals `mapTopLeft(pos.line, pos.column)`, and `mapBottomLeft(pos)` equals
`mapBottomLeft(pos.line, pos.column)`, which equals
`mapTopLeft(pos.line + 1, pos.column)` (with the `int` successor the code forms
and with the exact successor). -/
theorem location_overloads_agree (g : GridMetrics) (pos : CellLocation) :
    g.mapTopLeftPos pos = g.mapTopLeft pos.line pos.column ∧
    g.mapBottomLeftPos pos = g.mapBottomLeft pos.line pos.column ∧
    g.mapBottomLeft pos.line pos.column = g.mapTopLeft (addInt pos.line 1) pos.column ∧
    g.mapBottomLeft pos.line pos.column = g.mapTopLeft (pos.line + 1) pos.column :=
  ⟨rfl, rfl, rfl, mapBottomLeft_eq g pos.line pos.column⟩

/-! ## The debug representation -/

/-- A character that is not a brace is copied to the output. -/
theorem format_to_plain (c : Char) (rest : List Char) (args : List String)
    (h1 : c ≠ Char.ofNat 123) (h2 : c ≠ Char.ofNat 125) :
    format_to (c :: rest) args =
      (format_to rest args).map (fun s => String.singleton c ++ s) := by
  cases rest with
  | nil => simp [format_to, h1, h2]
  | cons d rest => simp [format_to, h1, h2]

/-- A replacement field is replaced by the next argument. -/
theorem format_to_field (rest : List Char) (a : String) (args : List String) :
    format_to (Char.ofNat 123 :: Char.ofNat 125 :: rest) (a :: args) =
      (format_to rest args).map (fun s => a ++ s) := by
  simp [format_to]

/-- A run of plain characters is copied to the output. -/
theorem format_to_text (l rest : List Char) (args : List String)
    (h : ∀ c ∈ l, c ≠ Char.ofNat 123 ∧ c ≠ Char.ofNat 125) :
    format_to (l ++ rest) args = (format_to rest args).map (fun s => String.mk l ++ s) := by
  induction l with
  | nil =>
    rw [List.nil_append]
    cases format_to rest args <;> simp [String.ext_iff]
  | cons c l ih =>
    have hc := h c (List.mem_cons_self c l)
    rw [List.cons_append, format_to_plain _ _ _ hc.1 hc.2,
      ih (fun d hd => h d (List.mem_cons_of_mem c hd))]
    cases format_to rest args <;> simp [String.ext_iff, String.singleton]

/-- The format string of the header with its seven arguments yields the seven
texts between the fixed parts of the format string, in order. -/
theorem format_to_gridMetrics (a1 a2 a3 a4 a5 a6 a7 : String) :
    format_to
      ("(pageSize=\x7b\x7d, cellSize=\x7b\x7d, baseline=\x7b\x7d, " ++
        "underline=\x7b\x7d@\x7b\x7d, margin=(left=\x7b\x7d, bottom=\x7b\x7d))").toList
      [a1, a2, a3, a4, a5, a6, a7] =
    some ("(pageSize=" ++ a1 ++ ", cellSize=" ++ a2 ++ ", baseline=" ++ a3 ++ ", underline=" ++
      a4 ++ "@" ++ a5 ++ ", margin=(left=" ++ a6 ++ ", bottom=" ++ a7 ++ "))") := by
  have e : ("(pageSize=\x7b\x7d, cellSize=\x7b\x7d, baseline=\x7b\x7d, " ++
        "underline=\x7b\x7d@\x7b\x7d, margin=(left=\x7b\x7d, bottom=\x7b\x7d))").toList =
      "(pageSize=".data ++ (Char.ofNat 123 :: Char.ofNat 125 ::
      (", cellSize=".data ++ (Char.ofNat 123 :: Char.ofNat 125 ::
      (", baseline=".data ++ (Char.ofNat 123 :: Char.ofNat 125 ::
      (", underline=".data ++ (Char.ofNat 123 :: Char.ofNat 125 ::
      ("@".data ++ (Char.ofNat 123 :: Char.ofNat 125 ::
      (", margin=(left=".data ++ (Char.ofNat 123 :: Char.ofNat 125 ::
      (", bottom=".data ++ (Char.ofNat 123 :: Char.ofNat 125 ::
      ("))".data)))))))))))))) := by decide
  rw [e]
  rw [format_to_text _ _ _ (by decide), format_to_field,
    format_to_text _ _ _ (by decide), format_to_field,
    format_to_text _ _ _ (by decide), format_to_field,
    format_to_text _ _ _ (by decide), format_to_field,
    format_to_text _ _ _ (by decide), format_to_field,
    format_to_text _ _ _ (by decide), format_to_field,
    format_to_text _ _ _ (by decide), format_to_field]
  have t : format_to "))".data [] = some "))" := by decide
  rw [t]
  simp only [Option.map_some']
  rw [Option.some.injEq, String.ext_iff]
  simp only [String.data_append, List.append_assoc]

/-- C13: the debug representation of a `GridMetrics` is built from `pageSize`,
`cellSize`, `baseline`, `underline.position`, `underline.thickness`,
`pageMargin.left` and `pageMargin.bottom`, in that order, in the shape
`(pageSize=P, cellSize=C, baseline=B, underline=POS@THICK, margin=(left=L, bottom=BOT))`;
two `GridMetrics` that differ only in `pageMargin.top` or in `cellMargin` have
the same debug representation. -/
theorem debug_representation (F : ArgFormatters) (v : GridMetrics) :
    formatter.format F v =
      some ("(pageSize=" ++ F.fmtPageSize v.pageSize ++ ", cellSize=" ++
        F.fmtImageSize v.cellSize ++ ", baseline=" ++ F.fmtInt v.baseline ++ ", underline=" ++
        F.fmtInt v.underline.position ++ "@" ++ F.fmtInt v.underline.thickness ++
        ", margin=(left=" ++ F.fmtInt v.pageMargin.left ++ ", bottom=" ++
        F.fmtInt v.pageMargin.bottom ++ "))") ∧
    (∀ (top : Int) (cellMargin : CellMargin),
      formatter.format F
          { v with cellMargin := cellMargin, pageMargin := { v.pageMargin with top := top } } =
        formatter.format F v) :=
  ⟨format_to_gridMetrics _ _ _ _ _ _ _, fun _ _ => rfl⟩

end terminal.rasterizer
